import Mathlib

/-!
Shallow embedding of `src/stress.py` (class `Pi5StressTester`).

Sensor files and external commands are modelled by an `Env` record whose
fields hold the parsed value of each source, with `none` standing for an
unreadable file, a failing external command, or a parse error (the Python
code catches every such failure with a bare `except`).  Floats in the
source are modelled as rationals; arithmetic on them is exact in the
regimes the claims talk about (comparisons, division by 1000).
-/

namespace Stress

/-- One tick's view of every sensor file and external command that
`Pi5StressTester` reads.  `none` = unreadable / failing / unparseable. -/
structure Env where
  thermal_zone0 : Option ℚ
  hwmon0_temp1 : Option ℚ
  cpu_percent : Option (List ℚ)
  scaling_freq : Nat → Option ℚ
  get_throttled : Option Nat
  vc_get_mem : Option String
  vc_measure_clock : Option String
  vc_measure_volts : Option String
  hwmon1_curr : Option ℚ

/-- Result of `check_throttling`'s bit decoding (stress.py lines 113-118). -/
structure ThrottleStatus where
  under_voltage : Bool
  frequency_capped : Bool
  throttling : Bool
  soft_temp_limit : Bool
deriving DecidableEq

/-- The pure bit decoding inside `check_throttling` (stress.py lines
113-118): `bool(int(throttled, 16) & 0x1)` etc. on the parsed mask. -/
def check_throttling_decode (mask : Nat) : ThrottleStatus :=
  { under_voltage := mask &&& 0x1 != 0
    frequency_capped := mask &&& 0x2 != 0
    throttling := mask &&& 0x4 != 0
    soft_temp_limit := mask &&& 0x8 != 0 }

/-- `check_throttling` (stress.py lines 107-121): reads and decodes the
firmware mask; any failure yields `{}`, modelled as `none`. -/
def check_throttling (env : Env) : Option ThrottleStatus :=
  (env.get_throttled).map check_throttling_decode

/-- `get_temperature` (stress.py lines 54-73): primary thermal zone in
millidegrees divided by 1000; if the secondary hwmon sensor reads, take
the max of the two; failure of the primary (or its parse) returns `None`. -/
def get_temperature (env : Env) : Option ℚ :=
  match env.thermal_zone0 with
  | none => none
  | some raw =>
    let temp := raw / 1000
    match env.hwmon0_temp1 with
    | none => some temp
    | some raw2 => some (max temp (raw2 / 1000))

/-- The dictionary returned by `get_cpu_usage_pi5` (stress.py lines 95-102). -/
structure CpuUsage where
  per_core : List ℚ
  average : ℚ
  cores : Nat
  frequencies : List ℚ
  throttling : Option ThrottleStatus
  max_freq : ℚ

/-- `get_cpu_usage_pi5` (stress.py lines 75-105): per-core percents from
psutil (whole call may fail, and an empty list would make the average
division raise — both return `None`); per-core frequency files read
independently with sentinel 0 (kHz value divided by 1000). -/
def get_cpu_usage_pi5 (env : Env) (pi5_model : Bool) : Option CpuUsage :=
  match env.cpu_percent with
  | none => none
  | some [] => none
  | some percents =>
    some
      { per_core := percents
        average := percents.sum / (percents.length : ℚ)
        cores := percents.length
        frequencies :=
          (List.range percents.length).map (fun i =>
            match env.scaling_freq i with
            | some raw => raw / 1000
            | none => 0)
        throttling := check_throttling env
        max_freq := if pi5_model then 2400 else 1800 }

/-- The dictionary returned by `get_gpu_usage` (stress.py lines 134-137):
the raw, un-parsed stdout strings of the two vcgencmd invocations. -/
structure GpuInfo where
  memory : String
  frequency : String
deriving DecidableEq

/-- `get_gpu_usage` (stress.py lines 123-139): runs `vcgencmd get_mem gpu`
then `vcgencmd measure_clock core`, returning their stripped stdout
strings unmodified; if either invocation raises, returns `None`. -/
def get_gpu_usage (env : Env) : Option GpuInfo :=
  match env.vc_get_mem with
  | none => none
  | some m =>
    match env.vc_measure_clock with
    | none => none
    | some f => some { memory := m, frequency := f }

/-- The dictionary returned by `get_power_status` (stress.py lines 156-159). -/
structure PowerInfo where
  voltage : String
  current : Option ℚ

/-- `get_power_status` (stress.py lines 141-161): voltage string from
vcgencmd (failure fails the whole call); current from an hwmon file in
milliamps divided by 1000, `None` on its own failure. -/
def get_power_status (env : Env) : Option PowerInfo :=
  match env.vc_measure_volts with
  | none => none
  | some v => some { voltage := v, current := (env.hwmon1_curr).map (· / 1000) }

/-- `psutil.virtual_memory()` as consumed by `log_data_pi5`:
percent, used bytes, total bytes. -/
structure MemInfo where
  percent : ℚ
  used : ℚ
  total : ℚ

/-- Bytes per gigabyte, `1024**3` in the source. -/
def gb : ℚ := 1024 * 1024 * 1024

/-- The four fixed leading CSV columns (stress.py line 448). -/
def base_header : List String :=
  ["timestamp", "temperature_c", "cpu_avg_percent", "elapsed_seconds"]

/-- The per-core CSV header columns built by the `for i in
range(cpu_count)` loop (stress.py lines 452-454). -/
def core_header_cols : Nat → List String
  | 0 => []
  | n + 1 =>
    core_header_cols n ++
      ["cpu_core_" ++ toString n ++ "_percent",
       "cpu_core_" ++ toString n ++ "_freq_mhz"]

/-- The eleven trailing CSV columns (stress.py lines 457-469). -/
def extra_header_cols : List String :=
  ["throttling_under_voltage", "throttling_freq_capped", "throttling_active",
   "throttling_soft_limit", "memory_percent", "memory_used_gb",
   "memory_total_gb", "gpu_memory", "gpu_frequency", "voltage", "current_a"]

/-- The full CSV header written once by `log_data_pi5` (stress.py lines
443-471), as a function of `psutil.cpu_count()`. -/
def log_data_pi5_header (cpu_count : Nat) : List String :=
  base_header ++ core_header_cols cpu_count ++ extra_header_cols

/-- Python truthiness of a throttle flag looked up with `.get` on a
possibly-empty dict: `"1" if throttle.get(k) else "0"` (lines 513-518). -/
def bool01 (b : Bool) : String := if b then "1" else "0"

/-- The two row cells appended per `zip(per_core, frequencies)` pair
(stress.py lines 506-509), including the `"N/A"` sentinel for a
non-positive frequency. -/
def core_row_cols : List (ℚ × ℚ) → List String
  | [] => []
  | (p, f) :: rest =>
    toString p :: (if f > 0 then toString f else "N/A") :: core_row_cols rest

/-- One data row as assembled by `log_data_pi5` (stress.py lines 494-543):
four base cells, two per zipped core pair, four throttle flags, three
memory cells, two GPU cells ("N/A" when GPU info is `None`), and two
power cells ("N/A" when power info is `None` or current is falsy). -/
def log_data_pi5_row (timestamp : String) (temp : ℚ) (cpu : CpuUsage)
    (elapsed : ℚ) (mem : MemInfo) (gpu : Option GpuInfo)
    (power : Option PowerInfo) : List String :=
  [timestamp, toString temp, toString cpu.average, toString elapsed] ++
  core_row_cols (cpu.per_core.zip cpu.frequencies) ++
  [bool01 (((cpu.throttling).map (·.under_voltage)).getD false),
   bool01 (((cpu.throttling).map (·.frequency_capped)).getD false),
   bool01 (((cpu.throttling).map (·.throttling)).getD false),
   bool01 (((cpu.throttling).map (·.soft_temp_limit)).getD false)] ++
  [toString mem.percent, toString (mem.used / gb), toString (mem.total / gb)] ++
  (match gpu with
   | some g => [g.memory, g.frequency]
   | none => ["N/A", "N/A"]) ++
  (match power with
   | some p =>
     [p.voltage,
      match p.current with
      | some c => if c ≠ 0 then toString c else "N/A"
      | none => "N/A"]
   | none => ["N/A", "N/A"])

/-- One tick's data collection and row construction inside the
`log_data_pi5` loop (stress.py lines 478-548): if either the temperature
or the CPU reading is `None`, no row is produced for the tick. -/
def tick_row (env : Env) (pi5_model : Bool) (timestamp : String)
    (elapsed : ℚ) (mem : MemInfo) : Option (List String) :=
  match get_temperature env, get_cpu_usage_pi5 env pi5_model with
  | some t, some c =>
    some (log_data_pi5_row timestamp t c elapsed mem (get_gpu_usage env)
      (get_power_status env))
  | _, _ => none

/-- The four display tiers of `print_pi5_status` (stress.py lines
368-376), named after the spec's ordered enumeration. -/
inductive Severity where
  | normal
  | warning
  | alert
  | critical
deriving DecidableEq

/-- Rank of a severity in the order NORMAL < WARNING < ALERT < CRITICAL. -/
def sevRank : Severity → Nat
  | .normal => 0
  | .warning => 1
  | .alert => 2
  | .critical => 3

/-- The temperature classification of `print_pi5_status` (stress.py lines
368-376): `warn_temp` is the function's parameter (default 70) and the
upper threshold is the instance attribute compared second
(`self.throttle_temp`); the spec calls the pair (warnTemp, maxSafeTemp). -/
def classify (temp warn_temp upper_temp : ℚ) : Severity :=
  if temp ≥ warn_temp then
    if temp ≥ upper_temp then .critical else .alert
  else if temp ≥ warn_temp - 10 then .warning
  else .normal

/-- The three chunk sizes (MB) tried per iteration of
`stress_memory_pi5` (stress.py line 269). -/
def memory_chunk_sizes : List Nat := [10, 50, 100]

/-- The allocation phase of one `stress_memory_pi5` iteration (stress.py
lines 269-274): sizes are tried in order and the first `MemoryError`
breaks out of the loop, so exactly the first `allocOk` sizes are
appended; nothing is removed here. -/
def alloc_chunks (chunks : List Nat) (allocOk : Nat) : List Nat :=
  chunks ++ (memory_chunk_sizes.take allocOk).map (fun s => s * 1024 * 1024)

/-- The periodic eviction of `stress_memory_pi5` (stress.py lines
284-285): `memory_chunks = memory_chunks[-10:]` once the length
exceeds 20. -/
def evict_chunks (chunks : List Nat) : List Nat :=
  if chunks.length > 20 then chunks.drop (chunks.length - 10) else chunks

/-- One iteration of the `stress_memory_pi5` loop body (stress.py lines
266-294) acting on the retained chunk list: allocate (inner `except
MemoryError: break`), then either a `MemoryError` raised after the
allocation loop (e.g. while touching the chunks) jumps to the outer
handler, which pops the most recent chunk and skips eviction, or the
eviction step runs. -/
def stress_memory_pi5_iter (chunks : List Nat) (allocOk : Nat)
    (touchRaises : Bool) : List Nat :=
  let cs := alloc_chunks chunks allocOk
  if touchRaises then (if cs.isEmpty then cs else cs.dropLast)
  else evict_chunks cs

/-- One observed tick of the recording loop: the elapsed time computed at
its start and the row it would append (`none` when the temperature or
CPU reading failed). -/
structure Tick where
  elapsed : ℚ
  row : Option (List String)

/-- The duration check `if duration and elapsed >= duration` (stress.py
line 556): `None` and `0.0` are falsy, so the check only fires for a
nonzero duration that elapsed time has reached. -/
def duration_reached : Option ℚ → ℚ → Bool
  | none, _ => false
  | some d, e => decide (d ≠ 0) && decide (d ≤ e)

/-- The `log_data_pi5` recording loop (stress.py lines 477-562) over a
finite trace of ticks: each tick appends its row (if any), then the
duration check either breaks the loop or processing continues. -/
def log_data_pi5_loop (duration : Option ℚ) : List Tick → List (List String)
  | [] => []
  | t :: ts =>
    (match t.row with | some r => [r] | none => []) ++
    (if duration_reached duration t.elapsed then []
     else log_data_pi5_loop duration ts)

/-- The per-core header loop contributes two columns per core. -/
theorem core_header_cols_length (n : Nat) :
    (core_header_cols n).length = 2 * n := by
  induction n with
  | zero => rfl
  | succ k ih =>
    simp only [core_header_cols, List.length_append, ih, List.length_cons,
      List.length_nil]
    omega

/-- The per-core row loop contributes two cells per zipped pair. -/
theorem core_row_cols_length (l : List (ℚ × ℚ)) :
    (core_row_cols l).length = 2 * l.length := by
  induction l with
  | nil => rfl
  | cons h t ih =>
    obtain ⟨p, f⟩ := h
    simp only [core_row_cols, List.length_cons, ih]
    omega

end Stress

namespace Stress

/-- C1: for any detected core count N the CSV header has exactly
4 + 2N + 11 columns, and a row built from a sample whose per-core
utilization and frequency lists both have length N has exactly the same
number of columns, whatever the availability of throttle, GPU and power
data. -/
theorem C1_header_and_row_columns (n : Nat) (timestamp : String) (temp : ℚ)
    (cpu : CpuUsage) (elapsed : ℚ) (mem : MemInfo) (gpu : Option GpuInfo)
    (power : Option PowerInfo)
    (hp : cpu.per_core.length = n) (hf : cpu.frequencies.length = n) :
    (log_data_pi5_header n).length = 4 + 2 * n + 11 ∧
    (log_data_pi5_row timestamp temp cpu elapsed mem gpu power).length =
      4 + 2 * n + 11 := by
  constructor
  · simp only [log_data_pi5_header, base_header, extra_header_cols,
      List.length_append, core_header_cols_length, List.length_cons,
      List.length_nil]
    try omega
  · rcases gpu with _ | g <;> rcases power with _ | p <;>
      simp only [log_data_pi5_row, List.length_append, core_row_cols_length,
        List.length_zip, hp, hf, List.length_cons, List.length_nil] <;>
      try omega

/-- Witness for C1 at core count 4 with all best-effort data absent. -/
theorem C1_header_and_row_columns_witness :
    ((⟨[10, 20, 30, 40], 25, 4, [1500, 1500, 1500, 1500], none, 2400⟩ :
        CpuUsage).per_core.length = 4) ∧
    (log_data_pi5_header 4).length = 4 + 2 * 4 + 11 ∧
    (log_data_pi5_row "2026-01-01 00:00:00" 50
        ⟨[10, 20, 30, 40], 25, 4, [1500, 1500, 1500, 1500], none, 2400⟩
        1 ⟨50, 2, 4⟩ none none).length = 4 + 2 * 4 + 11 :=
  ⟨rfl, C1_header_and_row_columns 4 "2026-01-01 00:00:00" 50
    ⟨[10, 20, 30, 40], 25, 4, [1500, 1500, 1500, 1500], none, 2400⟩
    1 ⟨50, 2, 4⟩ none none rfl rfl⟩

/-- C2: against thresholds warnTemp and maxSafeTemp (the code's
`warn_temp` parameter and the upper thermal threshold it compares
second), the classification assigns CRITICAL for t ≥ maxSafeTemp, ALERT
for warnTemp ≤ t < maxSafeTemp, WARNING for warnTemp − 10 ≤ t < warnTemp
and NORMAL for t < warnTemp − 10, provided warnTemp ≤ maxSafeTemp (as
holds for the program's 70 ≤ 80 ≤ 85). -/
theorem C2_classify_thresholds (t w m : ℚ) (hwm : w ≤ m) :
    (m ≤ t → classify t w m = .critical) ∧
    (w ≤ t → t < m → classify t w m = .alert) ∧
    (w - 10 ≤ t → t < w → classify t w m = .warning) ∧
    (t < w - 10 → classify t w m = .normal) := by
  unfold classify
  refine ⟨fun h => ?_, fun h1 h2 => ?_, fun h1 h2 => ?_, fun h => ?_⟩
  all_goals split_ifs <;> first | rfl | (exfalso; linarith)

/-- Witness for C2 at the program's thresholds. -/
theorem C2_classify_thresholds_witness :
    (70 : ℚ) ≤ 85 ∧ classify 86 70 85 = .critical ∧
    classify 75 70 85 = .alert :=
  ⟨by decide,
   (C2_classify_thresholds 86 70 85 (by decide)).1 (by decide),
   (C2_classify_thresholds 75 70 85 (by decide)).2.1 (by decide) (by decide)⟩

/-- C5: severity classification is monotonic in the temperature for any
fixed pair of thresholds, in the order NORMAL < WARNING < ALERT <
CRITICAL. -/
theorem C5_classify_monotone (t1 t2 w m : ℚ) (h : t1 < t2) :
    sevRank (classify t1 w m) ≤ sevRank (classify t2 w m) := by
  unfold classify
  split_ifs <;> simp only [sevRank] <;> first | omega | (exfalso; linarith)

/-- Witness for C5 at the program's thresholds. -/
theorem C5_classify_monotone_witness :
    (50 : ℚ) < 90 ∧
    sevRank (classify 50 70 85) ≤ sevRank (classify 90 70 85) :=
  ⟨by decide, C5_classify_monotone 50 90 70 85 (by decide)⟩

/-- Each single-bit test of the mask is exactly a test of the
corresponding power of two. -/
theorem and_two_pow_bne_zero (m i : Nat) :
    (m &&& 2 ^ i != 0) = m.testBit i := by
  rw [Nat.and_two_pow]
  cases h : m.testBit i <;> simp [h, Nat.pow_eq_zero]

/-- C6: the throttling bitmask decode tests bits 0, 1, 2, 3
independently — each flag equals the corresponding bit of the mask and
depends on no other bit; mask 0x5 yields under-voltage and throttling
true with the other two false, and mask 0xF sets all four at once. -/
theorem C6_decode_throttle_bits :
    (∀ mask : Nat,
      (check_throttling_decode mask).under_voltage = mask.testBit 0 ∧
      (check_throttling_decode mask).frequency_capped = mask.testBit 1 ∧
      (check_throttling_decode mask).throttling = mask.testBit 2 ∧
      (check_throttling_decode mask).soft_temp_limit = mask.testBit 3) ∧
    (∀ m1 m2 : Nat,
      (m1.testBit 0 = m2.testBit 0 →
        (check_throttling_decode m1).under_voltage =
          (check_throttling_decode m2).under_voltage) ∧
      (m1.testBit 1 = m2.testBit 1 →
        (check_throttling_decode m1).frequency_capped =
          (check_throttling_decode m2).frequency_capped) ∧
      (m1.testBit 2 = m2.testBit 2 →
        (check_throttling_decode m1).throttling =
          (check_throttling_decode m2).throttling) ∧
      (m1.testBit 3 = m2.testBit 3 →
        (check_throttling_decode m1).soft_temp_limit =
          (check_throttling_decode m2).soft_temp_limit)) ∧
    check_throttling_decode 0x5 = ⟨true, false, true, false⟩ ∧
    check_throttling_decode 0xF = ⟨true, true, true, true⟩ := by
  have hchar : ∀ mask : Nat,
      (check_throttling_decode mask).under_voltage = mask.testBit 0 ∧
      (check_throttling_decode mask).frequency_capped = mask.testBit 1 ∧
      (check_throttling_decode mask).throttling = mask.testBit 2 ∧
      (check_throttling_decode mask).soft_temp_limit = mask.testBit 3 :=
    fun mask =>
      ⟨and_two_pow_bne_zero mask 0, and_two_pow_bne_zero mask 1,
       and_two_pow_bne_zero mask 2, and_two_pow_bne_zero mask 3⟩
  refine ⟨hchar, fun m1 m2 => ⟨fun h => ?_, fun h => ?_, fun h => ?_,
    fun h => ?_⟩, by decide, by decide⟩
  · rw [(hchar m1).1, (hchar m2).1, h]
  · rw [(hchar m1).2.1, (hchar m2).2.1, h]
  · rw [(hchar m1).2.2.1, (hchar m2).2.2.1, h]
  · rw [(hchar m1).2.2.2, (hchar m2).2.2.2, h]

/-- Witness for C6: bit-0 independence applied at masks 5 and 7, which
agree on bit 0 and differ on bit 1. -/
theorem C6_decode_throttle_bits_witness :
    Nat.testBit 5 0 = Nat.testBit 7 0 ∧
    (check_throttling_decode 5).under_voltage =
      (check_throttling_decode 7).under_voltage :=
  ⟨by decide, (C6_decode_throttle_bits.2.1 5 7).1 (by decide)⟩

/-- Environment in which only the primary thermal zone is unreadable;
every other sensor and command succeeds. -/
def env_temp_dead : Env :=
  { thermal_zone0 := none
    hwmon0_temp1 := some 45000
    cpu_percent := some [10, 20, 30, 40]
    scaling_freq := fun _ => some 1500000
    get_throttled := some 0
    vc_get_mem := some "gpu=76M"
    vc_measure_clock := some "frequency(0)=250000000"
    vc_measure_volts := some "volt=0.8810V"
    hwmon1_curr := some 1200 }

/-- C3 counterexample: with only the primary thermal sensor unreadable
(everything else fine), the tick produces no row at all — the failure is
not replaced by a sentinel field, contradicting the claim that sampling
always yields a complete sample. -/
theorem C3_sample_counterexample :
    tick_row env_temp_dead true "2026-01-01 00:00:00" 1 ⟨50, 2, 4⟩ = none :=
  rfl

/-- Environment in which only the primary thermal zone and the psutil
per-core percentages are readable; every best-effort source fails. -/
def env_sensors_lost : Env :=
  { thermal_zone0 := some 45000
    hwmon0_temp1 := none
    cpu_percent := some [12]
    scaling_freq := fun _ => none
    get_throttled := none
    vc_get_mem := none
    vc_measure_clock := none
    vc_measure_volts := none
    hwmon1_curr := none }

/-- C3 amended: whenever the primary thermal sensor and the per-core
utilization call both succeed, the tick yields a complete row whatever
combination of the remaining sources fails (each such failure is
replaced by its sentinel); but when either of those two readings fails,
the reading returns None and the tick appends no row at all. -/
theorem C3_sample_amended (env : Env) (pi5_model : Bool) (ts : String)
    (e : ℚ) (mem : MemInfo) (r p : ℚ) (ps : List ℚ)
    (ht : env.thermal_zone0 = some r) (hc : env.cpu_percent = some (p :: ps)) :
    (tick_row env pi5_model ts e mem).isSome = true := by
  have h1 : ∃ a, get_temperature env = some a := by
    unfold get_temperature
    rw [ht]
    cases env.hwmon0_temp1 <;> exact ⟨_, rfl⟩
  have h2 : ∃ c, get_cpu_usage_pi5 env pi5_model = some c := by
    unfold get_cpu_usage_pi5
    rw [hc]
    exact ⟨_, rfl⟩
  obtain ⟨a, ha⟩ := h1
  obtain ⟨c, hcu⟩ := h2
  unfold tick_row
  rw [ha, hcu]
  rfl

/-- Witness for the amended C3: the primary temperature and the CPU call
succeed, every best-effort source fails, and a row is still produced. -/
theorem C3_sample_amended_witness :
    env_sensors_lost.thermal_zone0 = some 45000 ∧
    env_sensors_lost.cpu_percent = some [12] ∧
    (tick_row env_sensors_lost true "2026-01-01 00:00:00" 0
      ⟨0, 0, 0⟩).isSome = true :=
  ⟨rfl, rfl,
   C3_sample_amended env_sensors_lost true "2026-01-01 00:00:00" 0
     ⟨0, 0, 0⟩ 45000 12 [] rfl rfl⟩

/-- Following the spec's words only, for comparison with `get_gpu_usage`
(the source implements no such resolution): the unit-normalization
heuristic of the claimed probe resolver. -/
def probe_normalize_spec (raw : ℚ) : ℚ :=
  if raw > 10000 then raw / 1000000
  else if 1000 ≤ raw ∧ raw < 10000 then raw / 1000
  else raw

/-- Environment whose vcgencmd outputs are a Hz-scale clock string. -/
def env_gpu_hz : Env :=
  { thermal_zone0 := some 45000
    hwmon0_temp1 := none
    cpu_percent := some [10]
    scaling_freq := fun _ => none
    get_throttled := none
    vc_get_mem := some "gpu=76M"
    vc_measure_clock := some "frequency(0)=250000000"
    vc_measure_volts := none
    hwmon1_curr := none }

/-- C4 counterexample: GPU-frequency discovery returns the raw command
output unchanged — a Hz-scale reading of 250,000,000 is not normalized
to 250 as the claim's heuristic (shown alongside, modelled from the
spec) would require. -/
theorem C4_probe_counterexample :
    get_gpu_usage env_gpu_hz =
      some ⟨"gpu=76M", "frequency(0)=250000000"⟩ ∧
    probe_normalize_spec 250000000 = 250 ∧
    "frequency(0)=250000000" ≠ "250" :=
  ⟨rfl, by norm_num [probe_normalize_spec], by decide⟩

/-- C4 amended: GPU discovery runs exactly two fixed external commands
and passes their raw output strings through unmodified — no ordered
candidate list, numeric parsing, or unit normalization; if either
command fails it returns an explicit None without raising. -/
theorem C4_gpu_usage_amended (env : Env) (m f : String)
    (hm : env.vc_get_mem = some m) (hf : env.vc_measure_clock = some f) :
    get_gpu_usage env = some ⟨m, f⟩ ∧
    (∀ env2 : Env, env2.vc_get_mem = none → get_gpu_usage env2 = none) ∧
    (∀ env2 : Env, env2.vc_measure_clock = none →
      get_gpu_usage env2 = none) := by
  refine ⟨?_, ?_, ?_⟩
  · unfold get_gpu_usage
    rw [hm, hf]
  · intro env2 h2
    unfold get_gpu_usage
    rw [h2]
  · intro env2 h2
    unfold get_gpu_usage
    cases h3 : env2.vc_get_mem
    · rfl
    · rw [h2]

/-- Witness for the amended C4: both commands succeed and their raw
strings come back unchanged. -/
theorem C4_gpu_usage_amended_witness :
    env_gpu_hz.vc_get_mem = some "gpu=76M" ∧
    get_gpu_usage env_gpu_hz =
      some ⟨"gpu=76M", "frequency(0)=250000000"⟩ :=
  ⟨rfl,
   (C4_gpu_usage_amended env_gpu_hz "gpu=76M" "frequency(0)=250000000"
     rfl rfl).1⟩

/-- The source's pop-if-nonempty is exactly `List.dropLast`. -/
theorem isEmpty_ite_dropLast (l : List Nat) :
    (if l.isEmpty then l else l.dropLast) = l.dropLast := by
  cases l <;> rfl

/-- C7 counterexample: in an iteration whose very first allocation fails
(and nothing else raises), the retained list is unchanged — the claim
that an allocation failure removes exactly the most recently retained
chunk would instead leave the empty list. -/
theorem C7_memory_counterexample :
    stress_memory_pi5_iter [1] 0 false = [1] ∧
    ([1] : List Nat).dropLast = [] ∧ ([1] : List Nat) ≠ [] :=
  ⟨rfl, rfl, by decide⟩

/-- C7 amended: once the eviction step has run in an iteration the
retained list never exceeds 20 chunks (eviction keeps only the 10 most
recent); a MemoryError raised after the allocation loop (the outer
handler) removes exactly the most recently retained chunk; but an
allocation failure inside the allocation loop merely stops allocating
for that iteration and removes nothing. -/
theorem C7_memory_amended (chunks : List Nat) (allocOk : Nat) :
    (stress_memory_pi5_iter chunks allocOk false).length ≤ 20 ∧
    stress_memory_pi5_iter chunks allocOk true =
      (alloc_chunks chunks allocOk).dropLast ∧
    ((alloc_chunks chunks allocOk).length ≤ 20 →
      (stress_memory_pi5_iter chunks allocOk false).take chunks.length =
        chunks) := by
  refine ⟨?_, ?_, fun h => ?_⟩
  · show (evict_chunks (alloc_chunks chunks allocOk)).length ≤ 20
    unfold evict_chunks
    split_ifs with hlen
    · rw [List.length_drop]
      omega
    · omega
  · show (if (alloc_chunks chunks allocOk).isEmpty then _ else _) = _
    rw [isEmpty_ite_dropLast]
  · show (evict_chunks (alloc_chunks chunks allocOk)).take chunks.length =
      chunks
    unfold evict_chunks
    rw [if_neg (by omega)]
    unfold alloc_chunks
    exact List.take_left _ _

/-- Witness for the amended C7: two retained chunks, both allocations
succeed, nothing raises, and the original chunks are still retained. -/
theorem C7_memory_amended_witness :
    (alloc_chunks [1, 2] 2).length ≤ 20 ∧
    (stress_memory_pi5_iter [1, 2] 2 false).take 2 = [1, 2] :=
  ⟨by decide, (C7_memory_amended [1, 2] 2).2.2 (by decide)⟩

/-- C8: for any positive configured duration, once a tick observes
elapsed ≥ duration the loop stops after that tick — the trailing ticks
contribute no further rows, whatever they contain. -/
theorem C8_duration_stop (d : ℚ) (pre post : List Tick) (t : Tick)
    (hd : 0 < d) (he : d ≤ t.elapsed) :
    log_data_pi5_loop (some d) (pre ++ t :: post) =
      log_data_pi5_loop (some d) (pre ++ [t]) := by
  induction pre with
  | nil =>
    have hr : duration_reached (some d) t.elapsed = true := by
      simp only [duration_reached, Bool.and_eq_true, decide_eq_true_eq]
      exact ⟨hd.ne', he⟩
    simp [log_data_pi5_loop, hr]
  | cons q qs ih =>
    simp only [List.cons_append, log_data_pi5_loop, List.append_eq]
    rw [ih]

/-- Witness for C8: duration 3, the first tick already at elapsed 3; the
later tick's row is not appended. -/
theorem C8_duration_stop_witness :
    (0 : ℚ) < 3 ∧
    log_data_pi5_loop (some 3)
        [⟨3, some ["row1"]⟩, ⟨4, some ["row2"]⟩] =
      log_data_pi5_loop (some 3) [⟨3, some ["row1"]⟩] :=
  ⟨by decide,
   C8_duration_stop 3 [] [⟨4, some ["row2"]⟩] ⟨3, some ["row1"]⟩
     (by decide) (by decide)⟩

/-- C9: when both thermal sensors read, the reported temperature is the
maximum of the two millidegree readings each divided by 1000; when only
the primary reads, it is the primary reading divided by 1000. -/
theorem C9_temperature_max (p s : ℚ) (env1 env2 : Env)
    (h1p : env1.thermal_zone0 = some p) (h1s : env1.hwmon0_temp1 = some s)
    (h2p : env2.thermal_zone0 = some p) (h2s : env2.hwmon0_temp1 = none) :
    get_temperature env1 = some (max (p / 1000) (s / 1000)) ∧
    get_temperature env2 = some (p / 1000) := by
  constructor
  · unfold get_temperature
    rw [h1p, h1s]
  · unfold get_temperature
    rw [h2p, h2s]

/-- Environment with both thermal sensors readable. -/
def env_two_sensors : Env :=
  { thermal_zone0 := some 45000
    hwmon0_temp1 := some 52000
    cpu_percent := none
    scaling_freq := fun _ => none
    get_throttled := none
    vc_get_mem := none
    vc_measure_clock := none
    vc_measure_volts := none
    hwmon1_curr := none }

/-- Environment with only the primary thermal sensor readable. -/
def env_one_sensor : Env :=
  { thermal_zone0 := some 45000
    hwmon0_temp1 := none
    cpu_percent := none
    scaling_freq := fun _ => none
    get_throttled := none
    vc_get_mem := none
    vc_measure_clock := none
    vc_measure_volts := none
    hwmon1_curr := none }

/-- Witness for C9 at 45.000 °C primary and 52.000 °C secondary. -/
theorem C9_temperature_max_witness :
    env_two_sensors.thermal_zone0 = some 45000 ∧
    get_temperature env_two_sensors =
      some (max ((45000 : ℚ) / 1000) ((52000 : ℚ) / 1000)) ∧
    get_temperature env_one_sensor = some ((45000 : ℚ) / 1000) :=
  ⟨rfl,
   (C9_temperature_max 45000 52000 env_two_sensors env_one_sensor
     rfl rfl rfl rfl).1,
   (C9_temperature_max 45000 52000 env_two_sensors env_one_sensor
     rfl rfl rfl rfl).2⟩

/-- C10: a configured duration of 0 is falsy in the check
`if duration and elapsed >= duration`, so the loop behaves exactly as if
no duration were configured — it never stops by duration expiry. -/
theorem C10_zero_duration_disables (ticks : List Tick) :
    log_data_pi5_loop (some 0) ticks = log_data_pi5_loop none ticks := by
  induction ticks with
  | nil => rfl
  | cons t ts ih =>
    have h0 : duration_reached (some 0) t.elapsed = false := by
      simp [duration_reached]
    simp [log_data_pi5_loop, h0, duration_reached, ih]

end Stress
